import Mathlib

/-!
Shallow embedding of the reactive-operation wrappers of the
ng-firebase-signals library (src/src/lib/app.ts, storage.ts, ai.ts,
auth.ts and the variants concatenated into those files), together with
theorems settling the specification claims about them.

Angular signals are modelled as fields of explicit state records; each
TypeScript statement `sig.set(v)` becomes a functional record update.
Asynchronous vendor calls are modelled by passing their outcome as an
`Except String` argument; the number of times a vendor call is started
is tracked in an `invocations` counter where a claim needs it.
-/

namespace NgFirebaseSignals

/-! ## app.ts -/

/-- FirebaseConfig interface from src/src/lib/app.ts lines 8-17.
The six required fields are strings; TypeScript falsiness of a string
is emptiness, modelled with String.isEmpty. -/
structure FirebaseConfig where
  apiKey : String
  authDomain : String
  projectId : String
  storageBucket : String
  messagingSenderId : String
  appId : String
  measurementId : Option String := none
  databaseURL : Option String := none
deriving Repr, DecidableEq

/-- validateFirebaseConfig from src/src/lib/app.ts lines 58-81: an
errors array built by six sequential conditional pushes, one per
required field, then returned. -/
def validateFirebaseConfig (config : FirebaseConfig) : List String :=
  let errors : List String := []
  let errors := if config.apiKey.isEmpty then errors ++ ["apiKey is required"] else errors
  let errors := if config.authDomain.isEmpty then errors ++ ["authDomain is required"] else errors
  let errors := if config.projectId.isEmpty then errors ++ ["projectId is required"] else errors
  let errors := if config.storageBucket.isEmpty then errors ++ ["storageBucket is required"] else errors
  let errors := if config.messagingSenderId.isEmpty then errors ++ ["messagingSenderId is required"] else errors
  let errors := if config.appId.isEmpty then errors ++ ["appId is required"] else errors
  errors

/-- Characterisation used by claim C9 (written from the claim, to be
compared with validateFirebaseConfig): the required fields in their
fixed source order, each empty one contributing one message. -/
def validateFirebaseConfigSpec (config : FirebaseConfig) : List String :=
  ([("apiKey", config.apiKey), ("authDomain", config.authDomain),
    ("projectId", config.projectId), ("storageBucket", config.storageBucket),
    ("messagingSenderId", config.messagingSenderId), ("appId", config.appId)]
   ).filterMap (fun p => if p.2.isEmpty then some (p.1 ++ " is required") else none)

/-! ## storage.ts -/

/-- StorageStatus from src/src/lib/storage.ts line 17. -/
inductive StorageStatus where
  | idle | loading | success | error | paused | cancelled
deriving Repr, DecidableEq

/-- UploadProgress from storage.ts lines 19-23.  The source computes
percentage as (bytesTransferred / totalBytes) * 100 in floating point;
it is modelled in ℚ (the 0/0 case yields NaN in the source and 0 here;
no claim depends on it). -/
structure UploadProgress where
  bytesTransferred : Nat
  totalBytes : Nat
  percentage : ℚ
deriving Repr, DecidableEq

/-- StorageFile from storage.ts lines 25-33 (the Date fields are not
relevant to any claim and are omitted from the model). -/
structure StorageFile where
  name : String
  fullPath : String
  size : Option Nat := none
  contentType : Option String := none
  downloadURL : Option String := none
deriving Repr, DecidableEq

/-- The arguments of one uploadFile call site: the storage path and
the File object fields the callbacks read. -/
structure UploadArgs where
  path : String
  fileName : String
  fileSize : Nat
  fileType : String
deriving Repr, DecidableEq

/-- The five signals created by uploadFile (storage.ts lines 54-58),
plus a counter of uploadBytesResumable invocations.  uploadTask
records whether the uploadTask signal holds a task (non-null). -/
structure UploadState where
  data : Option StorageFile
  status : StorageStatus
  error : Option String
  progress : Option UploadProgress
  uploadTask : Bool
  invocations : Nat
deriving Repr, DecidableEq

/-- Initial signal values of uploadFile. -/
def uploadInit : UploadState :=
  { data := none, status := .idle, error := none, progress := none,
    uploadTask := false, invocations := 0 }

/-- startUpload, storage.ts lines 63-72 (the synchronous part before
any callback fires): sets status loading, clears error and progress,
calls uploadBytesResumable (counted) and stores the task. -/
def startUpload (s : UploadState) : UploadState :=
  { s with status := .loading, error := none, progress := none,
           uploadTask := true, invocations := s.invocations + 1 }

/-- The state field of an UploadTaskSnapshot as far as the switch in
the next-callback reads it. -/
inductive SnapshotRunState where
  | pausedTask | runningTask | otherTask
deriving Repr, DecidableEq

/-- Progress record built in the next-callback, storage.ts lines 76-80. -/
def mkProgress (bytesTransferred totalBytes : Nat) : UploadProgress :=
  { bytesTransferred := bytesTransferred, totalBytes := totalBytes,
    percentage := ((bytesTransferred : ℚ) / (totalBytes : ℚ)) * 100 }

/-- The state-changed next-callback, storage.ts lines 75-96: sets
progress from the snapshot, then switches on the snapshot state. -/
def onSnapshot (bytesTransferred totalBytes : Nat) (st : SnapshotRunState)
    (s : UploadState) : UploadState :=
  let s := { s with progress := some (mkProgress bytesTransferred totalBytes) }
  match st with
  | .pausedTask => { s with status := .paused }
  | .runningTask => { s with status := .loading }
  | .otherTask => s

/-- The upload error callback, storage.ts lines 97-101: status error,
error message, progress cleared. -/
def onUploadError (msg : String) (s : UploadState) : UploadState :=
  { s with status := .error, error := some msg, progress := none }

/-- The upload completion callback, storage.ts lines 102-122: awaits
getDownloadURL (outcome passed as urlRes); on success sets data from
the file and the url, status success, clears progress; if
getDownloadURL rejects, sets status error and the error message
(progress is left untouched by this path). -/
def onUploadComplete (args : UploadArgs) (urlRes : Except String String)
    (s : UploadState) : UploadState :=
  match urlRes with
  | .ok url =>
      { s with
        data := some { name := args.fileName, fullPath := args.path,
                       size := some args.fileSize, contentType := some args.fileType,
                       downloadURL := some url },
        status := .success, progress := none }
  | .error msg => { s with status := .error, error := some msg }

/-- cancel, storage.ts lines 140-147: if a task exists, cancel it and
set status cancelled, clear progress; otherwise do nothing. -/
def cancel (s : UploadState) : UploadState :=
  if s.uploadTask then { s with status := .cancelled, progress := none } else s

/-- Signals of downloadFile, storage.ts lines 172-174. -/
structure DownloadState where
  data : Option (String × StorageFile)
  status : StorageStatus
  error : Option String
deriving Repr, DecidableEq

/-- Initial signal values of downloadFile. -/
def downloadInit : DownloadState := { data := none, status := .idle, error := none }

/-- Metadata returned by getMetadata as read by download and list. -/
structure FileMetadata where
  name : String
  fullPath : String
  size : Option Nat := none
  contentType : Option String := none
deriving Repr, DecidableEq

/-- download, storage.ts lines 178-205: status loading, error cleared;
then getDownloadURL and getMetadata are awaited (their combined
outcome is res: first failure wins); on success data is set to the url
and the file record and status success; on failure status error and
the message. -/
def download (res : Except String (String × FileMetadata))
    (s : DownloadState) : DownloadState :=
  let s := { s with status := .loading, error := none }
  match res with
  | .ok (url, md) =>
      { s with
        data := some (url, { name := md.name, fullPath := md.fullPath,
                             size := md.size, contentType := md.contentType,
                             downloadURL := some url }),
        status := .success }
  | .error msg => { s with status := .error, error := some msg }

/-- A StorageReference inside a ListResult items array. -/
structure ItemRef where
  fullPath : String
deriving Repr, DecidableEq

/-- A folder reference inside a ListResult prefixes array. -/
structure FolderRef where
  name : String
deriving Repr, DecidableEq

/-- ListResult as read by list: items and folder references. -/
structure ListResultM where
  items : List ItemRef
  prefixes : List FolderRef
deriving Repr, DecidableEq

/-- The value held by the data signal of listFiles. -/
structure ListData where
  files : List StorageFile
  folders : List String
deriving Repr, DecidableEq

/-- Signals of listFiles, storage.ts lines 220-223. -/
structure ListState where
  data : ListData
  status : StorageStatus
  error : Option String
  hasMore : Bool
deriving Repr, DecidableEq

/-- Initial signal values of listFiles. -/
def listInit : ListState :=
  { data := { files := [], folders := [] }, status := .idle, error := none,
    hasMore := false }

/-- The per-item body of the listing loop, storage.ts lines 239-251:
await getMetadata, then await getDownloadURL, then build the
StorageFile; a failure of either step is the thrown exception. -/
def fetchItem (gm : ItemRef → Except String FileMetadata)
    (gu : ItemRef → Except String String) (i : ItemRef) :
    Except String StorageFile := do
  let md ← gm i
  let url ← gu i
  pure { name := md.name, fullPath := md.fullPath, size := md.size,
         contentType := md.contentType, downloadURL := some url }

/-- The listing loop, storage.ts lines 238-256: each item is fetched
inside try/catch; on success the file is pushed, on failure the item
is logged and skipped. -/
def processItems (gm : ItemRef → Except String FileMetadata)
    (gu : ItemRef → Except String String) :
    List ItemRef → List StorageFile
  | [] => []
  | i :: is =>
      match fetchItem gm gu i with
      | .ok f => f :: processItems gm gu is
      | .error _ => processItems gm gu is

/-- list, storage.ts lines 227-268: status loading, error cleared;
await listAll (outcome res); on failure status error with the message;
on success run the per-item loop, set data, hasMore and status
success. -/
def list (res : Except String ListResultM)
    (gm : ItemRef → Except String FileMetadata)
    (gu : ItemRef → Except String String) (s : ListState) : ListState :=
  let s := { s with status := .loading, error := none }
  match res with
  | .error msg => { s with status := .error, error := some msg }
  | .ok r =>
      { s with
        data := { files := processItems gm gu r.items,
                  folders := r.prefixes.map (fun p => p.name) },
        hasMore := decide (r.items.length > 0) || decide (r.prefixes.length > 0),
        status := .success }

/-! ## ai.ts -/

/-- AIStatus of the second ai.ts variant (line 316); the first variant
(line 14) lacks streaming and its states never use it. -/
inductive AIStatus where
  | idle | loading | success | error | streaming
deriving Repr, DecidableEq

/-- Token usage block of an AIResponse. -/
structure AIUsage where
  promptTokens : Nat
  responseTokens : Nat
  totalTokens : Nat
deriving Repr, DecidableEq

/-- A safety rating entry of an AIResponse. -/
structure SafetyRating where
  category : String
  probability : String
deriving Repr, DecidableEq

/-- AIResponse, ai.ts lines 16-27 (the second variant makes usage and
safetyRatings optional, but every producer in the source fills them). -/
structure AIResponse where
  text : String
  usage : AIUsage
  safetyRatings : List SafetyRating
deriving Repr, DecidableEq

/-- The message set when the GOOGLE_AI token is missing. -/
def notConfiguredMsg : String :=
  "Google AI not configured. Please provide googleAI.apiKey in your Firebase config."

/-- Signals of the reactive generateText (second ai.ts variant, lines
413-415), plus a counter of model.generateContent invocations. -/
structure GenState where
  data : Option AIResponse
  status : AIStatus
  error : Option String
  invocations : Nat
deriving Repr, DecidableEq

/-- Construction of the reactive generateText, ai.ts lines 409-430:
signals start at null/idle; when GOOGLE_AI is missing the error signal
is set to the configuration message and the wrapper object is returned
without throwing. -/
def generateTextInit (configured : Bool) : GenState :=
  if configured then
    { data := none, status := .idle, error := none, invocations := 0 }
  else
    { data := none, status := .idle, error := some notConfiguredMsg, invocations := 0 }

/-- The synchronous head of generate, ai.ts lines 443-446 (configured
case: status loading, error cleared, model.generateContent started and
counted), and the whole body of the replacement generate of the
unconfigured branch, lines 426-428 (sets only the error signal). -/
def generateStart (configured : Bool) (s : GenState) : GenState :=
  if configured then
    { s with status := .loading, error := none, invocations := s.invocations + 1 }
  else
    { s with error := some "Google AI not configured" }

/-- The resumption of generate after the awaited vendor outcome, ai.ts
lines 447-455: success sets data and status success; the catch sets
status error and the message (data untouched). -/
def generateFinish (vendor : Except String AIResponse) (s : GenState) : GenState :=
  match vendor with
  | .ok r => { s with data := some r, status := .success }
  | .error msg => { s with status := .error, error := some msg }

/-- One full run of generate, ai.ts lines 443-456, with the vendor
outcome supplied. -/
def generate (configured : Bool) (vendor : Except String AIResponse)
    (s : GenState) : GenState :=
  if configured then generateFinish vendor (generateStart true s)
  else generateStart false s

/-- Signals of the reactive generateTextStream (second ai.ts variant,
lines 471-474). -/
structure StreamState where
  data : Option AIResponse
  status : AIStatus
  error : Option String
  streamData : String
deriving Repr, DecidableEq

/-- Construction of generateTextStream, ai.ts lines 467-490: same
configuration behaviour as generateText. -/
def generateTextStreamInit (configured : Bool) : StreamState :=
  if configured then
    { data := none, status := .idle, error := none, streamData := "" }
  else
    { data := none, status := .idle, error := some notConfiguredMsg, streamData := "" }

/-- The successive values taken by fullText inside the chunk loop of
ai.ts lines 512-518, starting from an already accumulated text. -/
def streamSnapshotsAux (fullText : String) : List String → List String
  | [] => []
  | c :: cs => (fullText ++ c) :: streamSnapshotsAux (fullText ++ c) cs

/-- The sequence of streamData snapshot values over one streaming run:
the empty string set at line 506, then one snapshot per chunk. -/
def streamSnapshots (chunks : List String) : List String :=
  "" :: streamSnapshotsAux "" chunks

/-- One full run of the streaming generate, ai.ts lines 503-527:
status loading, error cleared, streamData reset; status streaming; the
chunks delivered by the vendor stream are appended to fullText in
order, each written to streamData; then the final processResponse
outcome either sets data and status success or (for a failure thrown
anywhere, in which case chunks are those delivered before it) sets
status error and the message. -/
def generateStream (configured : Bool) (chunks : List String)
    (finalRes : Except String AIResponse) (s : StreamState) : StreamState :=
  if configured then
    let s := { s with status := .loading, error := none, streamData := "" }
    let s := { s with status := .streaming }
    let s := { s with streamData := chunks.foldl (fun fullText c => fullText ++ c) "" }
    match finalRes with
    | .ok r => { s with data := some r, status := .success }
    | .error msg => { s with status := .error, error := some msg }
  else
    { s with error := some "Google AI not configured" }

/-- A chat message as stored by the first-variant createChat. -/
structure ChatMessage where
  role : String
  content : String
deriving Repr, DecidableEq

/-- Signals of the first-variant createChat. -/
structure ChatState where
  messages : List ChatMessage
  status : AIStatus
  error : Option String
deriving Repr, DecidableEq

/-- Construction of the first-variant createChat, ai.ts lines 150-182:
signals are created, then, when GOOGLE_AI is missing, an Error is
thrown synchronously (lines 162-164), modelled as Except.error;
otherwise the wrapper state is returned with the system prompt seeded
as a model message. -/
def createChatV1 (configured : Bool) (systemPrompt : String) :
    Except String ChatState :=
  if configured then
    Except.ok { messages := [{ role := "model", content := systemPrompt }],
                status := .idle, error := none }
  else
    Except.error notConfiguredMsg

/-- The async one-shot generateText of the first ai.ts variant, lines
84-111: a missing GOOGLE_AI throws the configuration message; a vendor
failure is rethrown with the prefix at lines 108-110; a vendor success
is returned. -/
def generateTextAsync (configured : Bool) (vendor : Except String AIResponse) :
    Except String AIResponse :=
  if configured then
    match vendor with
    | .ok r => .ok r
    | .error msg => .error ("Text generation failed: " ++ msg)
  else
    .error notConfiguredMsg

/-- The async generateEmbeddings of the second ai.ts variant, lines
645-665: a missing GOOGLE_AI throws the configuration message; a
vendor failure is rethrown with the prefix at lines 662-664; the
embedding payload is returned on success. -/
def generateEmbeddings (configured : Bool) (vendor : Except String (List Int)) :
    Except String (List Int) :=
  if configured then
    match vendor with
    | .ok e => .ok e
    | .error msg => .error ("Embedding generation failed: " ++ msg)
  else
    .error notConfiguredMsg

/-- The placeholder pushed by generateBatch for a failed prompt, ai.ts
lines 269-273 and 697-701. -/
def placeholderResponse : AIResponse :=
  { text := "", usage := { promptTokens := 0, responseTokens := 0, totalTokens := 0 },
    safetyRatings := [] }

/-- The prompt loop of generateBatch, ai.ts lines 263-275 and 691-703:
each prompt is generated inside try/catch; a success is pushed, a
failure pushes the placeholder. -/
def batchLoop (gen : String → Except String AIResponse) :
    List String → List AIResponse
  | [] => []
  | p :: ps =>
      match gen p with
      | .ok r => r :: batchLoop gen ps
      | .error _ => placeholderResponse :: batchLoop gen ps

/-- generateBatch, ai.ts lines 240-278 and 668-706 (both variants have
the identical shape): a missing GOOGLE_AI throws; otherwise the loop
runs to completion and the results array is returned. -/
def generateBatch (configured : Bool) (gen : String → Except String AIResponse)
    (prompts : List String) : Except String (List AIResponse) :=
  if configured then .ok (batchLoop gen prompts)
  else .error notConfiguredMsg

/-! ## auth.ts (one-shot variant, src/unnamed/part_006) -/

/-- A UserCredential as far as the model needs it. -/
structure UserCredential where
  uid : String
deriving Repr, DecidableEq

/-- The one-shot signInWithGoogle of src/unnamed/part_006 lines 50-54:
it builds a provider and returns the signInWithPopup promise directly,
with no try/catch and no transformation of a rejection. -/
def signInWithGoogle (vendor : Except String UserCredential) :
    Except String UserCredential :=
  vendor

/-- The shape of a rethrown one-shot failure message asserted by the
specification: some operation name, the literal text, and the original
message. -/
def prefixedFailureMessage (orig msg : String) : Prop :=
  ∃ op, msg = op ++ " failed: " ++ orig

/-! ## Theorems -/

/-- C1, counterexample: starting an upload and cancelling it does set
status to cancelled, but a late completion callback then sets status
to success, and a late error callback sets status to error — the
callbacks registered by startUpload carry no terminal-state guard, so
the claim that late callbacks change nothing after cancellation is
false on this concrete run. -/
theorem C1_counterexample :
    (cancel (startUpload uploadInit)).status = .cancelled ∧
    (onUploadComplete { path := "uploads/a.txt", fileName := "a.txt", fileSize := 4, fileType := "text/plain" }
        (.ok "https://example.com/a.txt") (cancel (startUpload uploadInit))).status = .success ∧
    (onUploadComplete { path := "uploads/a.txt", fileName := "a.txt", fileSize := 4, fileType := "text/plain" }
        (.ok "https://example.com/a.txt") (cancel (startUpload uploadInit))).data ≠
      (cancel (startUpload uploadInit)).data ∧
    (onUploadError "late failure" (cancel (startUpload uploadInit))).status = .error := by
  refine ⟨rfl, rfl, ?_, rfl⟩
  simp [onUploadComplete, cancel, startUpload, uploadInit]

/-- C1, amended: for any upload operation that has been started,
cancel() synchronously sets status to cancelled and clears progress;
but the underlying callbacks are not guarded, so a late completion
callback afterwards overwrites status with success and sets data, and
a late error callback overwrites status with error and sets the error
message. -/
theorem C1_amended_ok (s : UploadState) (args : UploadArgs) (url msg : String) :
    (cancel (startUpload s)).status = .cancelled ∧
    (cancel (startUpload s)).progress = none ∧
    (onUploadComplete args (.ok url) (cancel (startUpload s))).status = .success ∧
    ((onUploadComplete args (.ok url) (cancel (startUpload s))).data).isSome = true ∧
    (onUploadComplete args (.error msg) (cancel (startUpload s))).status = .error ∧
    (onUploadError msg (cancel (startUpload s))).status = .error := by
  simp [cancel, startUpload, onUploadComplete, onUploadError]

/-- C2, counterexample: after one startUpload the operation is in the
loading (running) state, and a second startUpload invokes
uploadBytesResumable again, for a total of two invocations instead of
the claimed one; the reactive generate of the AI module behaves the
same way. -/
theorem C2_counterexample :
    (startUpload uploadInit).status = .loading ∧
    (startUpload (startUpload uploadInit)).invocations = 2 ∧
    (generateStart true (generateTextInit true)).status = .loading ∧
    (generateStart true (generateStart true (generateTextInit true))).invocations = 2 := by
  refine ⟨rfl, rfl, rfl, rfl⟩

/-- C2, amended: neither startUpload nor the reactive generate has an
idempotence guard — every call while already running starts the
underlying vendor call once more, so two calls produce two
invocations. -/
theorem C2_amended_ok (s : UploadState) (g : GenState) :
    (startUpload s).status = .loading ∧
    (startUpload s).invocations = s.invocations + 1 ∧
    (startUpload (startUpload s)).invocations = s.invocations + 2 ∧
    (generateStart true g).status = .loading ∧
    (generateStart true g).invocations = g.invocations + 1 ∧
    (generateStart true (generateStart true g)).invocations = g.invocations + 2 := by
  refine ⟨rfl, rfl, ?_, rfl, rfl, ?_⟩ <;> simp [startUpload, generateStart]

/-- C3, counterexample: with GOOGLE_AI missing, running the reactive
generateText generate action leaves status at idle (never error, with
the error signal carrying the configuration message and no vendor
invocation), and the first-variant createChat throws synchronously at
construction — both refute the claim as stated. -/
theorem C3_counterexample :
    (generate false (.error "unused") (generateTextInit false)).status = .idle ∧
    (generate false (.error "unused") (generateTextInit false)).status ≠ .error ∧
    (generate false (.error "unused") (generateTextInit false)).error
      = some "Google AI not configured" ∧
    (generate false (.error "unused") (generateTextInit false)).invocations = 0 ∧
    createChatV1 false "You are a helpful assistant." = .error notConfiguredMsg := by
  refine ⟨rfl, by simp [generate, generateStart, generateTextInit], rfl, rfl, rfl⟩

/-- C3, amended: when GOOGLE_AI is missing, the reactive generateText
and generateTextStream are constructed without throwing, with the
error signal populated with the configuration message while status
remains idle; invoking generate changes neither status nor the
invocation count (the call is never attempted) and only rewrites the
error signal; the first-variant createChat, by contrast, throws
synchronously at construction. -/
theorem C3_amended_ok (v : Except String AIResponse) (s : GenState) (sp : String) :
    (generateTextInit false).status = .idle ∧
    (generateTextInit false).error = some notConfiguredMsg ∧
    (generate false v s).status = s.status ∧
    (generate false v s).invocations = s.invocations ∧
    (generate false v s).error = some "Google AI not configured" ∧
    (generateTextStreamInit false).status = .idle ∧
    (generateTextStreamInit false).error = some notConfiguredMsg ∧
    createChatV1 false sp = .error notConfiguredMsg := by
  simp [generateTextInit, generate, generateStart, generateTextStreamInit, createChatV1]

/-- Helper: the listing loop keeps exactly the items whose detail
fetch succeeds, in order. -/
theorem processItems_eq_filterMap (gm : ItemRef → Except String FileMetadata)
    (gu : ItemRef → Except String String) (l : List ItemRef) :
    processItems gm gu l = l.filterMap (fun i => (fetchItem gm gu i).toOption) := by
  induction l with
  | nil => rfl
  | cons i is ih =>
      cases h : fetchItem gm gu i <;>
        simp [processItems, h, Except.toOption, ih]

/-- C4: when the enumeration succeeds, list reaches status success
with data.files holding exactly the items whose metadata and download
URL fetches both succeeded (failed items are omitted), and when the
enumeration itself fails, list reaches status error with the message. -/
theorem C4_list_partial_failure (gm : ItemRef → Except String FileMetadata)
    (gu : ItemRef → Except String String) (r : ListResultM) (msg : String)
    (s t : ListState) :
    (list (.ok r) gm gu s).status = .success ∧
    (list (.ok r) gm gu s).error = none ∧
    (list (.ok r) gm gu s).data.files
      = r.items.filterMap (fun i => (fetchItem gm gu i).toOption) ∧
    (list (.error msg) gm gu t).status = .error ∧
    (list (.error msg) gm gu t).error = some msg := by
  refine ⟨rfl, rfl, ?_, rfl, rfl⟩
  simp [list, processItems_eq_filterMap]

/-- C5, counterexample: a progress snapshot followed by a completion
callback whose getDownloadURL rejects ends in status error while the
progress signal still holds the last snapshot — this transition into
error does not clear progress. -/
theorem C5_counterexample :
    (onUploadComplete { path := "p", fileName := "f", fileSize := 1, fileType := "t" }
        (.error "getDownloadURL failed")
        (onSnapshot 512 1024 .runningTask (startUpload uploadInit))).status = .error ∧
    ((onUploadComplete { path := "p", fileName := "f", fileSize := 1, fileType := "t" }
        (.error "getDownloadURL failed")
        (onSnapshot 512 1024 .runningTask (startUpload uploadInit))).progress).isSome = true := by
  refine ⟨rfl, rfl⟩

/-- C5, amended: the transport error callback clears progress on
entering error, but the error path taken when getDownloadURL fails
after upload completion sets status error and the message while
leaving the progress signal unchanged. -/
theorem C5_amended_ok (msg : String) (args : UploadArgs) (s : UploadState) :
    (onUploadError msg s).status = .error ∧
    (onUploadError msg s).error = some msg ∧
    (onUploadError msg s).progress = none ∧
    (onUploadComplete args (.error msg) s).status = .error ∧
    (onUploadComplete args (.error msg) s).error = some msg ∧
    (onUploadComplete args (.error msg) s).progress = s.progress := by
  simp [onUploadError, onUploadComplete]

/-- Helper: consecutive snapshots of the streaming accumulator differ
by exactly the chunk delivered between them. -/
theorem streamSnapshotsAux_consec (cs : List String) :
    ∀ (fullText : String) (i : Nat), i < cs.length →
      (fullText :: streamSnapshotsAux fullText cs).getD (i + 1) ""
        = (fullText :: streamSnapshotsAux fullText cs).getD i "" ++ cs.getD i "" := by
  induction cs with
  | nil => intro ft i h; simp at h
  | cons c cs ih =>
      intro ft i h
      cases i with
      | zero => simp [streamSnapshotsAux]
      | succ j =>
          have hj : j < cs.length := by simpa using h
          simpa [streamSnapshotsAux] using ih (ft ++ c) j hj

/-- C6: over a streaming generation run, the sequence of streamData
snapshots is prefix-monotonic — each snapshot is the previous snapshot
with the newly delivered chunk appended — and after the final chunk a
successful completion sets data and moves status to success, with
streamData holding the concatenation of all chunks. -/
theorem C6_stream_monotonic (chunks : List String) (i : Nat) (h : i < chunks.length)
    (r : AIResponse) (s : StreamState) :
    (streamSnapshots chunks).getD (i + 1) ""
      = (streamSnapshots chunks).getD i "" ++ chunks.getD i "" ∧
    (generateStream true chunks (.ok r) s).status = .success ∧
    (generateStream true chunks (.ok r) s).data = some r ∧
    (generateStream true chunks (.ok r) s).streamData = String.join chunks := by
  refine ⟨streamSnapshotsAux_consec chunks "" i h, rfl, rfl, ?_⟩
  simp [generateStream, String.join]

/-- Witness for C6 at the concrete chunk list plus index 0. -/
theorem C6_stream_monotonic_witness :
    0 < (["ab", "c"] : List String).length ∧
    ((streamSnapshots ["ab", "c"]).getD 1 ""
        = (streamSnapshots ["ab", "c"]).getD 0 "" ++ (["ab", "c"] : List String).getD 0 "" ∧
      (generateStream true ["ab", "c"] (.ok placeholderResponse)
          (generateTextStreamInit true)).status = .success ∧
      (generateStream true ["ab", "c"] (.ok placeholderResponse)
          (generateTextStreamInit true)).data = some placeholderResponse ∧
      (generateStream true ["ab", "c"] (.ok placeholderResponse)
          (generateTextStreamInit true)).streamData = String.join ["ab", "c"]) :=
  ⟨by decide,
   C6_stream_monotonic ["ab", "c"] 0 (by decide) placeholderResponse
     (generateTextStreamInit true)⟩

/-- C7, counterexample: the one-shot signInWithGoogle passes a vendor
rejection through unchanged — for the rejection message X the
resulting message is X itself, which cannot be of the prefixed form
required by the claim (its length is too small). -/
theorem C7_counterexample :
    signInWithGoogle (.error "X") = .error "X" ∧
    ¬ prefixedFailureMessage "X" "X" := by
  refine ⟨rfl, ?_⟩
  rintro ⟨op, h⟩
  have hx : ("X" : String).length = 1 := rfl
  have hf : (" failed: " : String).length = 9 := rfl
  have hl := congrArg String.length h
  rw [String.length_append, String.length_append, hx, hf] at hl
  omega

/-- C7, amended: the one-shot AI helpers rethrow vendor failures with
the operation-name prefix (Text generation failed, Embedding
generation failed), but the one-shot auth helpers such as
signInWithGoogle return the vendor promise directly and pass any
rejection through without prefixing. -/
theorem C7_amended_ok (msg : String) (v : Except String UserCredential)
    (r : AIResponse) :
    generateTextAsync true (.error msg) = .error ("Text generation failed: " ++ msg) ∧
    generateTextAsync true (.ok r) = .ok r ∧
    generateEmbeddings true (.error msg) = .error ("Embedding generation failed: " ++ msg) ∧
    signInWithGoogle v = v := by
  refine ⟨rfl, rfl, rfl, rfl⟩

/-- C8, counterexample: a successful download followed by a failed
re-invocation of the same download action ends in status error with
both data (stale, from the first attempt) and error present, violating
the claimed exclusive-or. -/
theorem C8_counterexample :
    (download (.error "boom")
        (download (.ok ("https://example.com/f", { name := "f", fullPath := "p" }))
          downloadInit)).status = .error ∧
    ((download (.error "boom")
        (download (.ok ("https://example.com/f", { name := "f", fullPath := "p" }))
          downloadInit)).data).isSome = true ∧
    ((download (.error "boom")
        (download (.ok ("https://example.com/f", { name := "f", fullPath := "p" }))
          downloadInit)).error).isSome = true := by
  refine ⟨rfl, rfl, rfl⟩

/-- C8, amended: at construction both data and error are absent in
idle, and for the first attempt from the initial state the
exclusive-or holds (success has data and no error, failure has the
error and no data); but the download action never clears data, so a
failing attempt keeps whatever data a previous attempt left, and after
a success followed by a failure both are present. -/
theorem C8_amended_ok (url : String) (md : FileMetadata) (msg : String)
    (s : DownloadState) :
    downloadInit.status = .idle ∧
    downloadInit.data = none ∧
    downloadInit.error = none ∧
    (download (.ok (url, md)) downloadInit).status = .success ∧
    ((download (.ok (url, md)) downloadInit).data).isSome = true ∧
    (download (.ok (url, md)) downloadInit).error = none ∧
    (download (.error msg) downloadInit).status = .error ∧
    (download (.error msg) downloadInit).data = none ∧
    (download (.error msg) downloadInit).error = some msg ∧
    (download (.error msg) s).data = s.data := by
  simp [download, downloadInit]

/-- C9: validateFirebaseConfig returns exactly one missing-field
message per empty required field, in the fixed source order given by
validateFirebaseConfigSpec, and returns the empty list exactly when
all six required fields are non-empty; it is a total function. -/
theorem C9_validate_config (c : FirebaseConfig) :
    validateFirebaseConfig c = validateFirebaseConfigSpec c ∧
    (validateFirebaseConfig c = [] ↔
      (c.apiKey.isEmpty = false ∧ c.authDomain.isEmpty = false ∧
       c.projectId.isEmpty = false ∧ c.storageBucket.isEmpty = false ∧
       c.messagingSenderId.isEmpty = false ∧ c.appId.isEmpty = false)) := by
  cases h1 : c.apiKey.isEmpty <;> cases h2 : c.authDomain.isEmpty <;>
    cases h3 : c.projectId.isEmpty <;> cases h4 : c.storageBucket.isEmpty <;>
      cases h5 : c.messagingSenderId.isEmpty <;> cases h6 : c.appId.isEmpty <;>
        simp [validateFirebaseConfig, validateFirebaseConfigSpec, h1, h2, h3, h4, h5, h6]

/-- Helper: the batch loop is the elementwise image of the prompt
list, replacing each failure by the placeholder. -/
theorem batchLoop_eq_map (gen : String → Except String AIResponse)
    (prompts : List String) :
    batchLoop gen prompts
      = prompts.map (fun p =>
          match gen p with
          | .ok r => r
          | .error _ => placeholderResponse) := by
  induction prompts with
  | nil => rfl
  | cons p ps ih => cases h : gen p <;> simp [batchLoop, h, ih]

/-- C10: for a configured service, generateBatch resolves (never
rejects) with a list of the same length as the prompts in which the
i-th element is the i-th prompt result, each failing prompt replaced
in place by the placeholder response with empty text, all-zero usage
and empty safety ratings. -/
theorem C10_generate_batch (gen : String → Except String AIResponse)
    (prompts : List String) :
    generateBatch true gen prompts
      = .ok (prompts.map (fun p =>
          match gen p with
          | .ok r => r
          | .error _ => placeholderResponse)) ∧
    (batchLoop gen prompts).length = prompts.length ∧
    placeholderResponse.text = "" ∧
    placeholderResponse.usage = { promptTokens := 0, responseTokens := 0, totalTokens := 0 } ∧
    placeholderResponse.safetyRatings = [] := by
  refine ⟨?_, ?_, rfl, rfl, rfl⟩
  · simp [generateBatch, batchLoop_eq_map]
  · rw [batchLoop_eq_map]; simp

end NgFirebaseSignals
